import Mathlib

/-
Shallow embedding of the ramp-reshaping engine of `mirage/dark/dark_prep.py`
(class `DarkPrep`).  A 4-D detector cube is a nested list indexed
(integration, frame/group, row, column); samples are modelled as ℚ
(the source holds numpy float/int arrays and all the arithmetic used by the
claims — elementwise add/subtract and arithmetic means — is exact on ℚ).
Fallible source code (raise) is modelled with `Except`; where the source
raises after having mutated its argument in place, the error value carries
the state of the object at the moment of the raise.
-/

namespace DarkPrep

abbrev Row := List ℚ
abbrev Frame := List Row
abbrev Integ := List Frame
abbrev Cube := List Integ

/-- Elementwise addition of two (y, x) images (numpy `a + b`). -/
def addFrames (a b : Frame) : Frame := List.zipWith (List.zipWith (· + ·)) a b

/-- Elementwise subtraction of two (y, x) images (numpy `a - b`). -/
def subFrames (a b : Frame) : Frame := List.zipWith (List.zipWith (· - ·)) a b

/-- Elementwise sum of a stack of frames (used by `np.mean(..., axis=0)`). -/
def sumFrames : List Frame → Frame
  | [] => []
  | f :: fs => fs.foldl addFrames f

/-- `np.mean(stack, axis=0)`: elementwise sum divided by the stack length. -/
def meanFrames (fs : List Frame) : Frame :=
  (sumFrames fs).map (List.map (fun q => q / (fs.length : ℚ)))

/-- The header keywords of the dark that `dark_prep.py` reads and writes. -/
structure Header where
  READPATT : String
  NFRAMES : Nat
  NSKIP : Nat
  NGROUPS : Nat
  NINTS : Nat
  deriving DecidableEq, Repr

/-- The `read_fits` object threaded through the pipeline: the 4-D `data`
cube, the optional `sbAndRefpix` cube of the same shape, the optional
3-D `zeroframe` (integration, y, x), and the header. -/
structure ReadFits where
  data : Cube
  sbAndRefpix : Option Cube := none
  zeroframe : Option (List Frame) := none
  header : Header
  deriving DecidableEq, Repr

/-! ### data_volume_check (dark_prep.py lines 300-361)

`np.hstack` on 4-D arrays concatenates along axis 1 (the frame axis), i.e.
per integration; `data[:, -1, :, :]` / `data[:, 0, :, :]` broadcast the
last / first frame of each integration over the appended frames. -/

/-- One iteration of the `for ints in range(div - 1)` loop at lines 339-341:
`obj.data = np.hstack((obj.data, np.copy(obj.data) + obj.data[:, -1, :, :]))`.
Note the copy is of the *current* (possibly already extended) data. -/
def hstackOffsetCopy (c : Cube) : Cube :=
  c.map (fun g => g ++ g.map (fun f => addFrames f (g.getLastD [])))

/-- The whole loop, `div - 1` iterations. -/
def extLoop : Nat → Cube → Cube
  | 0, c => c
  | n + 1, c => extLoop n (hstackOffsetCopy c)

/-- Lines 349-350: `extra_frames = np.copy(obj.data[:, 1:mod + 1, :, :]) -
obj.data[:, 0, :, :]` then `obj.data = np.hstack((obj.data, extra_frames +
obj.data[:, -1, :, :]))`. -/
def extShortfall (m : Nat) (c : Cube) : Cube :=
  c.map (fun g =>
    g ++ ((g.drop 1).take m).map (fun f =>
      addFrames (subFrames f (g.headD [])) (g.getLastD [])))

/-- `DarkPrep.data_volume_check` (lines 300-361).  `inputframes` is
`obj.data.shape[1]`; the requested total is `ngroup * (nskip + nframe)`.
Extension uses `div = floor(required / inputframes)` and
`mod = required % inputframes`; truncation keeps the first `required`
frames; the header `NGROUPS` is set to `required` unconditionally at the
end (line 361). -/
def data_volume_check (ngroup nframe nskip : Nat) (obj : ReadFits) : ReadFits :=
  let required := ngroup * (nskip + nframe)
  let inputframes := (obj.data.headD []).length
  let obj1 :=
    if inputframes < required then
      { obj with
        data := extShortfall (required % inputframes)
                  (extLoop (required / inputframes - 1) obj.data),
        sbAndRefpix := obj.sbAndRefpix.map (fun sb =>
          extShortfall (required % inputframes)
            (extLoop (required / inputframes - 1) sb)) }
    else if required < inputframes then
      { obj with
        data := obj.data.map (List.take required),
        sbAndRefpix := obj.sbAndRefpix.map (fun sb => sb.map (List.take required)) }
    else obj
  { obj1 with header := { obj1.header with NGROUPS := required } }

/-! ### integration_copy (lines 504-548) and darkints (lines 263-298) -/

/-- The `for i in range(ncopies)` loop of `integration_copy`: each pass
appends `copydata` — the array captured *before* the loop — to the front
axis (`np.vstack`). -/
def appendCopies {α : Type} (c : List α) : Nat → List α → List α
  | 0, d => d
  | n + 1, d => appendCopies c n (d ++ c)

/-- The front-axis extension performed by `integration_copy` on each of
`data`, `sbAndRefpix` and `zeroframe`:
`ncopies = np.int((req - darkint) / darkint)` full copies of the original
followed by the first `extras = (req - darkint) % darkint` entries of the
(already extended) array. -/
def extendList {α : Type} (req darkint : Nat) (c : List α) : List α :=
  let ncopies := (req - darkint) / darkint
  let extras := (req - darkint) % darkint
  let c1 := if 0 < ncopies then appendCopies c ncopies c else c
  if 0 < extras then c1 ++ c1.take extras else c1

/-- `DarkPrep.integration_copy` (lines 504-548).  The source runs the same
vstack sequence over `data`, `sbAndRefpix` (if present) and `zeroframe`
(if present) and then sets header `NINTS = req`; `extendList` is that
per-array sequence. -/
def integration_copy (req darkint : Nat) (dark : ReadFits) : ReadFits :=
  { dark with
    data := extendList req darkint dark.data,
    sbAndRefpix := dark.sbAndRefpix.map (extendList req darkint),
    zeroframe := dark.zeroframe.map (extendList req darkint),
    header := { dark.header with NINTS := req } }

/-- `DarkPrep.darkints` (lines 263-298): truncate to the first `reqints`
integrations, or extend via `integration_copy`.  (The truncation branch of
the source does not update header `NINTS`.) -/
def darkints (reqints : Nat) (dark : ReadFits) : ReadFits :=
  let ndarkints := dark.data.length
  if reqints ≤ ndarkints then
    { dark with
      data := dark.data.take reqints,
      sbAndRefpix := dark.sbAndRefpix.map (List.take reqints),
      zeroframe := dark.zeroframe.map (List.take reqints) }
  else integration_copy reqints ndarkints dark

/-! ### reorder_dark (lines 896-1025) -/

/-- A row of the readout-pattern definition table (`self.readpatterns`);
`readpattern_check` (line 853) upper-cases every `name` before
`reorder_dark` can run. -/
structure RPatt where
  name : String
  nframe : Nat
  nskip : Nat
  deriving DecidableEq, Repr

/-- The RAPID-family list `rapids = ['RAPID', 'NISRAPID', 'FGSRAPID']`
(line 938). -/
def rapids : List String := ["RAPID", "NISRAPID", "FGSRAPID"]

/-- `data[:, 0, :, :]` restricted to one integration: its frame 0. -/
def frame0 (g : List Frame) : Frame := g.headD []

/-- Errors `reorder_dark` can raise: the `IndexError` from the
`readpatterns` lookup at line 926 when the dark's pattern is not in the
table, and the `ValueError` at line 1010 for an untranslatable pattern
combination. -/
inductive ReorderErr
  | lookupError
  | valueError
  deriving DecidableEq, Repr

/-- The group loop at lines 974-997, for one integration.  `fr` is the
running `frames` index array (initially `np.arange(0, nframe)`, stepped by
`frames = frames + framesPerGroup` after every group); each group is the
mean of the indexed frames when `nframe > 1`, else the single frame at
`frames[0]`.  (`outdark` is zero-initialised, so `outdark[integ, i] +=
accumimage` stores `accumimage`.) -/
def groupLoop (cI : Integ) (nframe fpg : Nat) : Nat → List Nat → List Frame
  | 0, _ => []
  | k + 1, fr =>
      (if 1 < nframe then meanFrames (fr.map (fun n => cI.getD n []))
       else cI.getD (fr.headD 0) []) ::
        groupLoop cI nframe fpg k (fr.map (· + fpg))

/-- Case A of `reorder_dark`: the averaging loop over
`range(nint) × range(ngroup)` (lines 970-997). -/
def caseAData (cube : Cube) (nint ngroup nframe fpg : Nat) : Cube :=
  (List.range nint).map (fun i =>
    groupLoop (cube.getD i []) nframe fpg ngroup (List.range nframe))

/-- Header updates at lines 1019-1023, applied on the non-raising paths. -/
def reorderHeader (req_patt : String) (nint ngroup nframe nskip : Nat)
    (h : Header) : Header :=
  { h with READPATT := req_patt, NFRAMES := nframe, NSKIP := nskip,
           NGROUPS := ngroup, NINTS := nint }

/-- Line 940 of the zero-frame handling at lines 936-955:
`dark.zeroframe = dark.data[:, 0, :, :]` happens iff the input pattern is
RAPID-family and no zero-frame exists yet; every other arm leaves `dark`
untouched. -/
def zeroframeCapture (dark : ReadFits) : ReadFits :=
  if dark.header.READPATT ∈ rapids ∧ dark.zeroframe = none
  then { dark with zeroframe := some (dark.data.map frame0) }
  else dark

lemma zeroframeCapture_data (dark : ReadFits) :
    (zeroframeCapture dark).data = dark.data := by
  rw [zeroframeCapture]
  split_ifs <;> rfl

lemma zeroframeCapture_sb (dark : ReadFits) :
    (zeroframeCapture dark).sbAndRefpix = dark.sbAndRefpix := by
  rw [zeroframeCapture]
  split_ifs <;> rfl

lemma zeroframeCapture_header (dark : ReadFits) :
    (zeroframeCapture dark).header = dark.header := by
  rw [zeroframeCapture]
  split_ifs <;> rfl

/-- `DarkPrep.reorder_dark` (lines 896-1025).  Arguments mirror
`self.readpatterns` and `self.params['Readout']`; the requested pattern
string is the one stored by `readpattern_check` (already upper-cased).
On a raise the error carries the `dark` object as it stands at that point
(the zero-frame capture at line 940 precedes the raise at line 1010; all
other mutations of `dark` happen after the branch, lines 1016-1023).
Returns the reordered object and `sbzero`. -/
def reorder_dark (tbl : List RPatt) (req_patt : String)
    (nint ngroup nframe nskip : Nat) (dark : ReadFits) :
    Except (ReorderErr × ReadFits) (ReadFits × Option (List Frame)) :=
  let darkpatt := dark.header.READPATT
  -- lines 925-926: dark_nskip = self.readpatterns['nskip'].data[mtch][0]
  -- (IndexError when the dark's pattern is absent; the value is unused).
  match tbl.find? (fun r => r.name == darkpatt) with
  | none => .error (.lookupError, dark)
  | some _ =>
    -- zero-frame handling, lines 936-955.  The four elif arms collapse to:
    -- dark.zeroframe is set from frame 0 iff the pattern is RAPID-family
    -- and no zero-frame exists; sbzero is sbAndRefpix's frame 0 iff the
    -- pattern is RAPID-family and sbAndRefpix is present, else None.
    let dark1 := zeroframeCapture dark
    let sbzero := if darkpatt ∈ rapids
                  then dark.sbAndRefpix.map (fun sb => sb.map frame0)
                  else none
    if darkpatt ∈ rapids ∧ req_patt ∉ rapids then
      -- Case A (lines 961-997): average/skip RAPID frames into groups.
      let fpg := nframe + nskip
      .ok ({ dark1 with
               data := caseAData dark1.data nint ngroup nframe fpg,
               sbAndRefpix := dark1.sbAndRefpix.map (fun sb =>
                 caseAData sb nint ngroup nframe fpg),
               header := reorderHeader req_patt nint ngroup nframe nskip
                 dark1.header },
            sbzero)
    else if req_patt = darkpatt then
      -- Case B (lines 999-1006): identity crop to the first ngroup frames.
      .ok ({ dark1 with
               data := dark1.data.map (List.take ngroup),
               sbAndRefpix := dark1.sbAndRefpix.map (fun sb =>
                 sb.map (List.take ngroup)),
               header := reorderHeader req_patt nint ngroup nframe nskip
                 dark1.header },
            sbzero)
    else
      -- lines 1007-1012: ValueError.
      .error (.valueError, dark1)

/-! ### crop_dark (lines 177-261) -/

/-- `self.subarray_bounds`: `[x_min, y_min, x_max, y_max]`, inclusive. -/
structure SubBounds where
  xstart : Nat
  ystart : Nat
  xend : Nat
  yend : Nat
  deriving DecidableEq, Repr

/-- `model.data[:, :, b[1]:b[3]+1, b[0]:b[2]+1]` restricted to one
(y, x) image. -/
def cropFrame (b : SubBounds) (f : Frame) : Frame :=
  ((f.drop b.ystart).take (b.yend + 1 - b.ystart)).map (fun row =>
    (row.drop b.xstart).take (b.xend + 1 - b.xstart))

/-- `modshape[-2]` of a 4-D cube. -/
def shapeY (c : Cube) : Nat := ((c.headD []).headD []).length

/-- `modshape[-1]` of a 4-D cube. -/
def shapeX (c : Cube) : Nat := (((c.headD []).headD []).headD []).length

/-- The two `ValueError`s of `crop_dark`: amplifier mode not in {1, 4}
(line 252) and 4-amp fast-axis width not a multiple of 4 (line 258). -/
inductive CropErr
  | badAmpMode
  | badFastWidth
  deriving DecidableEq, Repr

/-- `DarkPrep.crop_dark` (lines 177-261) for the 4-D `read_fits` object
(the `len(modshape) == 4` arm; the 3-D/2-D arms apply the same trailing
two-axis slices at lower rank).  The source slices first and validates
the amplifier configuration afterwards, so the error value carries the
(possibly already cropped) model.  `n = int(nfast / 4) * 4` truncates
toward zero exactly as Python's `int()` does on the quotient. -/
def crop_dark (b : SubBounds) (namp : Int) (model : ReadFits) :
    Except (CropErr × ReadFits) ReadFits :=
  let yd := shapeY model.data
  let xd := shapeX model.data
  let m1 :=
    if b.xstart ≠ 0 ∨ b.xend ≠ xd - 1 ∨ b.ystart ≠ 0 ∨ b.yend ≠ yd - 1 then
      { model with
        data := model.data.map (List.map (cropFrame b)),
        sbAndRefpix := model.sbAndRefpix.map (List.map (List.map (cropFrame b))),
        zeroframe := model.zeroframe.map (List.map (cropFrame b)) }
    else model
  let nfast : Int := (b.xend : Int) - (b.xstart : Int) + 1
  if namp ≠ 4 ∧ namp ≠ 1 then .error (.badAmpMode, m1)
  else if namp = 4 ∧ (nfast / 4) * 4 ≠ nfast then .error (.badFastWidth, m1)
  else .ok m1

/-- The model as it stands when `crop_dark` returns or raises. -/
def cropCarried : Except (CropErr × ReadFits) ReadFits → ReadFits
  | .ok m => m
  | .error (_, m) => m

/-- Whether an `Except` is an error. -/
def isErr {ε α : Type} : Except ε α → Bool
  | .error _ => true
  | .ok _ => false

/-! ### get_base_dark: raw-range check and signed-to-unsigned shift
(lines 473-483) -/

/-- All samples of a cube in one list (for `np.max` / `np.min`). -/
def flattenCube (c : Cube) : List ℚ := c.flatten.flatten.flatten

/-- `np.max`-style maximum of the samples (0 on an empty cube). -/
def cubeMax (c : Cube) : ℚ :=
  match flattenCube c with
  | [] => 0
  | x :: xs => xs.foldl max x

/-- `np.min`-style minimum of the samples (0 on an empty cube). -/
def cubeMin (c : Cube) : ℚ :=
  match flattenCube c with
  | [] => 0
  | x :: xs => xs.foldl min x

/-- Apply `f` to every sample of a cube. -/
def cubeMap (f : ℚ → ℚ) (c : Cube) : Cube :=
  c.map (List.map (List.map (List.map f)))

/-- The `ValueError` at line 478: raw data range larger than 65535. -/
inductive RangeErr
  | rangeTooLarge
  deriving DecidableEq, Repr

/-- Lines 473-483 of `get_base_dark`: reject a dark whose value range
exceeds 65535, then add 32768 to every sample iff the minimum is
negative (`self.dark.data += 32768`). -/
def get_base_dark_shift (data : Cube) : Except RangeErr Cube :=
  if 65535 < cubeMax data - cubeMin data then .error .rangeTooLarge
  else if cubeMin data < 0 then .ok (cubeMap (· + 32768) data)
  else .ok data

/-! ### Concrete cubes used to evaluate the extension loop -/

/-- One integration of two 1×1 frames (values 1 and 3), RAPID dark. -/
def cubeC1 : ReadFits :=
  { data := [[[[1]], [[3]]]],
    header := { READPATT := "RAPID", NFRAMES := 1, NSKIP := 0,
                NGROUPS := 2, NINTS := 1 } }

/-- One integration of a single 1×1 frame (value 1), RAPID dark. -/
def cubeC2 : ReadFits :=
  { data := [[[[1]]]],
    header := { READPATT := "RAPID", NFRAMES := 1, NSKIP := 0,
                NGROUPS := 1, NINTS := 1 } }

/-- Claim C1: `data.shape[1] == header.NGROUPS` is supposed to hold after
`data_volume_check`.  It does not: with 2 input frames and a request of
`ngroup = 7, nframe = 1, nskip = 0` (7 required frames, `div = 3`,
`mod = 1`), the extension loop doubles the current ramp on every pass
(2 → 4 → 8 frames) and the shortfall step appends one more, so the frame
axis ends at 9 while `NGROUPS` is set to 7. -/
theorem c1_data_volume_check_breaks_ngroups_invariant :
    ((data_volume_check 7 1 0 cubeC1).data.headD []).length = 9 ∧
    (data_volume_check 7 1 0 cubeC1).header.NGROUPS = 7 ∧
    ((data_volume_check 7 1 0 cubeC1).data.headD []).length ≠
      (data_volume_check 7 1 0 cubeC1).header.NGROUPS := by
  refine ⟨?_, ?_, ?_⟩ <;> decide

/-- Claim C2: for `F_req = k·F + m` the extension is supposed to append
exactly `k - 1` offset copies of the original block and then an `m`-frame
partial block.  On a 1-frame input with `F_req = 3` (`k = 3`, `m = 0`)
that predicts frames `[1, 2, 3]`; the code's loop instead doubles the
whole current sequence each pass and produces `[1, 2, 3, 4]`. -/
theorem c2_frame_extension_doubles_not_copies :
    (data_volume_check 3 1 0 cubeC2).data = [[[[1]], [[2]], [[3]], [[4]]]] ∧
    (data_volume_check 3 1 0 cubeC2).data ≠ [[[[1]], [[2]], [[3]]]] := by
  have h : (data_volume_check 3 1 0 cubeC2).data = [[[[1]], [[2]], [[3]], [[4]]]] := by
    norm_num [data_volume_check, cubeC2, extShortfall, extLoop, hstackOffsetCopy,
      addFrames, subFrames]
  refine ⟨h, ?_⟩
  rw [h]
  simp

/-! ### Claim C7: crop_dark error conditions -/

/-- For Python's `n = int(nfast / 4) * 4; n != nfast` test:
`(n / 4) * 4 = n` exactly when 4 divides `n`. -/
lemma divFourMulFour_eq_iff (n : Int) : (n / 4) * 4 = n ↔ (4 : Int) ∣ n := by
  constructor
  · intro h
    exact ⟨n / 4, by rw [Int.mul_comm]; exact h.symm⟩
  · intro h
    exact Int.ediv_mul_cancel h

/-- The error outcome of `crop_dark` depends only on the validation at
lines 251-260, not on the slicing. -/
lemma isErr_crop_dark (b : SubBounds) (namp : Int) (m : ReadFits) :
    isErr (crop_dark b namp m) =
      if namp ≠ 4 ∧ namp ≠ 1 then true
      else if namp = 4 ∧ (((b.xend : Int) - (b.xstart : Int) + 1) / 4) * 4 ≠
          ((b.xend : Int) - (b.xstart : Int) + 1) then true
      else false := by
  simp only [crop_dark]
  split_ifs <;> simp_all [isErr]

/-- Claim C7: `crop_dark` raises exactly when the amplifier count is
neither 1 nor 4, or it is 4 and the cropped fast-axis width
`x_max - x_min + 1` is not a multiple of 4. -/
theorem c7_crop_dark_error_iff (b : SubBounds) (namp : Int) (m : ReadFits) :
    isErr (crop_dark b namp m) = true ↔
      ((namp ≠ 1 ∧ namp ≠ 4) ∨
       (namp = 4 ∧ ¬ ((4 : Int) ∣ ((b.xend : Int) - (b.xstart : Int) + 1)))) := by
  have hiff := divFourMulFour_eq_iff ((b.xend : Int) - (b.xstart : Int) + 1)
  rw [isErr_crop_dark]
  by_cases h4 : namp = 4
  · subst h4
    by_cases hd : (4 : Int) ∣ ((b.xend : Int) - (b.xstart : Int) + 1)
    · simp [hiff.mpr hd, hd]
    · have hne : (((b.xend : Int) - (b.xstart : Int) + 1) / 4) * 4 ≠
          ((b.xend : Int) - (b.xstart : Int) + 1) := fun he => hd (hiff.mp he)
      simp [hne, hd]
  · by_cases h1 : namp = 1
    · subst h1
      norm_num
    · simp [h1, h4]

/-! ### Claim C8: crop with full-frame bounds is the identity -/

/-- Claim C8: when the subarray bounds equal the full frame, `crop_dark`
never slices, so `data`, `sbAndRefpix` and `zeroframe` are bit-identical
to the inputs whatever the validation outcome. -/
theorem c8_crop_full_frame_identity (b : SubBounds) (namp : Int) (m : ReadFits)
    (hx0 : b.xstart = 0) (hy0 : b.ystart = 0)
    (hx1 : b.xend = shapeX m.data - 1) (hy1 : b.yend = shapeY m.data - 1) :
    cropCarried (crop_dark b namp m) = m := by
  have hguard : ¬ (b.xstart ≠ 0 ∨ b.xend ≠ shapeX m.data - 1 ∨
      b.ystart ≠ 0 ∨ b.yend ≠ shapeY m.data - 1) := by
    push_neg
    exact ⟨hx0, hx1, hy0, hy1⟩
  simp only [crop_dark, if_neg hguard]
  split_ifs <;> simp [cropCarried]

/-- Model used by the C8 witness: one integration, one 2×2 frame, with
`sbAndRefpix` and `zeroframe` present. -/
def w8model : ReadFits :=
  { data := [[[[1, 2], [3, 4]]]],
    sbAndRefpix := some [[[[5, 6], [7, 8]]]],
    zeroframe := some [[[9, 10], [11, 12]]],
    header := { READPATT := "RAPID", NFRAMES := 1, NSKIP := 0,
                NGROUPS := 1, NINTS := 1 } }

/-- Witness for C8: full-frame bounds `(0, 0, 1, 1)` on a 2×2 model with
one amplifier leave the model untouched. -/
theorem c8_crop_full_frame_identity_witness :
    (0 : Nat) = 0 ∧ (1 : Nat) = shapeX w8model.data - 1 ∧
      (1 : Nat) = shapeY w8model.data - 1 ∧
      cropCarried (crop_dark ⟨0, 0, 1, 1⟩ 1 w8model) = w8model :=
  ⟨rfl, by decide, by decide,
   c8_crop_full_frame_identity ⟨0, 0, 1, 1⟩ 1 w8model rfl rfl (by decide) (by decide)⟩

/-! ### Claim C10: signed-to-unsigned shift in get_base_dark -/

/-- Claim C10: on any raw dark that passes the range check, the data is
shifted by +32768 on every sample exactly when the minimum sample is
negative, and left unchanged otherwise. -/
theorem c10_signed_shift (data : Cube)
    (hrange : cubeMax data - cubeMin data ≤ 65535) :
    (cubeMin data < 0 →
       get_base_dark_shift data = .ok (cubeMap (· + 32768) data)) ∧
    (0 ≤ cubeMin data → get_base_dark_shift data = .ok data) := by
  have h1 : ¬ (65535 < cubeMax data - cubeMin data) := not_lt.mpr hrange
  constructor
  · intro h
    simp only [get_base_dark_shift, if_neg h1, if_pos h]
  · intro h
    simp only [get_base_dark_shift, if_neg h1, if_neg (not_lt.mpr h)]

/-- Cube used by the C10 witness: one integration, one frame, samples
-1 and 4 (so the minimum is negative and the range is 5). -/
def w10cube : Cube := [[[[-1, 4]]]]

/-- Witness for C10: the range check passes, the minimum is negative, and
every sample is shifted by 32768. -/
theorem c10_signed_shift_witness :
    cubeMax w10cube - cubeMin w10cube ≤ 65535 ∧ cubeMin w10cube < 0 ∧
      get_base_dark_shift w10cube = .ok [[[[32767, 32772]]]] := by
  have hmin : cubeMin w10cube = -1 := by
    norm_num [cubeMin, flattenCube, w10cube, min_def]
  have hmax : cubeMax w10cube = 4 := by
    norm_num [cubeMax, flattenCube, w10cube, max_def]
  have hr : cubeMax w10cube - cubeMin w10cube ≤ 65535 := by
    rw [hmin, hmax]; norm_num
  have hneg : cubeMin w10cube < 0 := by rw [hmin]; norm_num
  refine ⟨hr, hneg, ?_⟩
  have := (c10_signed_shift w10cube hr).1 hneg
  rw [this]
  norm_num [cubeMap, w10cube]

/-! ### Claim C6: integration_copy -/

/-- `n` copies of `c`, in order (the unrolled copy loop). -/
def repChain {α : Type} : Nat → List α → List α
  | 0, _ => []
  | n + 1, c => c ++ repChain n c

lemma appendCopies_eq {α : Type} (c : List α) :
    ∀ (n : Nat) (d : List α), appendCopies c n d = d ++ repChain n c := by
  intro n
  induction n with
  | zero => intro d; simp [appendCopies, repChain]
  | succ k ih =>
      intro d
      rw [appendCopies, ih, repChain, List.append_assoc]

lemma repChain_length {α : Type} (c : List α) :
    ∀ n : Nat, (repChain n c).length = n * c.length := by
  intro n
  induction n with
  | zero => simp [repChain]
  | succ k ih => simp [repChain, ih, Nat.succ_mul, Nat.add_comm]

lemma repChain_getD {α : Type} (c : List α) (d0 : α) :
    ∀ (n j : Nat), j < n * c.length →
      (repChain n c).getD j d0 = c.getD (j % c.length) d0 := by
  intro n
  induction n with
  | zero => intro j hj; simp at hj
  | succ k ih =>
      intro j hj
      rw [repChain]
      by_cases hjc : j < c.length
      · rw [List.getD_append _ _ _ _ hjc, Nat.mod_eq_of_lt hjc]
      · push_neg at hjc
        rw [List.getD_append_right _ _ _ _ hjc, Nat.mod_eq_sub_mod hjc]
        apply ih
        rw [Nat.succ_mul] at hj
        omega

/-- Indexing into `n` chained copies of `c` followed by a prefix of `c`:
entry `j` is entry `j % c.length` of `c`. -/
lemma tailChain_getD {α : Type} (c : List α) (d0 : α) (n e j : Nat)
    (he : e ≤ c.length) (hj : j < n * c.length + e) :
    (repChain n c ++ c.take e).getD j d0 = c.getD (j % c.length) d0 := by
  by_cases hjr : j < n * c.length
  · rw [List.getD_append _ _ _ _ (by rw [repChain_length]; omega)]
    exact repChain_getD c d0 n j hjr
  · push_neg at hjr
    rw [List.getD_append_right _ _ _ _ (by rw [repChain_length]; omega),
      repChain_length]
    have hr : j - n * c.length < e := by omega
    rw [List.getD_eq_getElem?_getD, List.getD_eq_getElem?_getD,
      List.getElem?_take, if_pos hr]
    congr 2
    have hsplit : j = c.length * n + (j - n * c.length) := by
      rw [Nat.mul_comm]
      omega
    have hmod : j % c.length = j - n * c.length := by
      conv_lhs => rw [hsplit]
      rw [Nat.mul_add_mod, Nat.mod_eq_of_lt (by omega)]
    omega

/-- Behaviour of the per-array extension of `integration_copy`: the output
has exactly `req` entries, the first `darkint` are the original array, and
entry `darkint + j` is original entry `j % darkint`. -/
lemma extendList_spec {α : Type} (d0 : α) (req darkint : Nat) (c : List α)
    (hlen : c.length = darkint) (hpos : 0 < darkint) (hlt : darkint < req) :
    (extendList req darkint c).length = req ∧
    (extendList req darkint c).take darkint = c ∧
    ∀ j, j < req - darkint →
      (extendList req darkint c).getD (darkint + j) d0 =
        c.getD (j % darkint) d0 := by
  have hmodlt : (req - darkint) % darkint < darkint := Nat.mod_lt _ hpos
  have hdm : darkint * ((req - darkint) / darkint) + (req - darkint) % darkint =
      req - darkint := Nat.div_add_mod (req - darkint) darkint
  have hdm' : ((req - darkint) / darkint) * darkint + (req - darkint) % darkint =
      req - darkint := by rw [Nat.mul_comm]; exact hdm
  have hc1 : (if 0 < (req - darkint) / darkint then
        appendCopies c ((req - darkint) / darkint) c else c) =
      c ++ repChain ((req - darkint) / darkint) c := by
    split_ifs with h
    · exact appendCopies_eq c _ c
    · have h0 : (req - darkint) / darkint = 0 := Nat.eq_zero_of_not_pos h
      simp [h0, repChain]
  have hform : extendList req darkint c =
      c ++ (repChain ((req - darkint) / darkint) c ++
            c.take ((req - darkint) % darkint)) := by
    simp only [extendList, hc1]
    have htk : (c ++ repChain ((req - darkint) / darkint) c).take
        ((req - darkint) % darkint) = c.take ((req - darkint) % darkint) :=
      List.take_append_of_le_length (by omega)
    split_ifs with hex
    · rw [htk, List.append_assoc]
    · have h0 : (req - darkint) % darkint = 0 := by omega
      simp [h0]
  have htail_len : (repChain ((req - darkint) / darkint) c ++
      c.take ((req - darkint) % darkint)).length = req - darkint := by
    rw [List.length_append, repChain_length, List.length_take, hlen]
    omega
  refine ⟨?_, ?_, ?_⟩
  · rw [hform, List.length_append, htail_len, hlen]
    omega
  · rw [hform, List.take_append_of_le_length (by omega), ← hlen,
      List.take_length]
  · intro j hj
    rw [hform, List.getD_append_right _ _ _ _ (by omega)]
    have hidx : darkint + j - c.length = j := by omega
    have hres := tailChain_getD c d0 ((req - darkint) / darkint)
      ((req - darkint) % darkint) j (by omega) (by rw [hlen]; omega)
    rw [hidx, hres, hlen]

/-- Claim C6: extending an `I_in`-integration cube to `I_req > I_in`
integrations keeps the first `I_in` integrations unchanged, makes
integration `I_in + j` a plain copy of integration `j mod I_in` (no
offset), applies the identical rule to `sbAndRefpix` and `zeroframe`
when present, and sets header `NINTS` to `I_req`. -/
theorem c6_integration_copy_content (req darkint j : Nat) (dark : ReadFits)
    (hlen : dark.data.length = darkint) (hpos : 0 < darkint)
    (hlt : darkint < req) (hj : j < req - darkint) :
    (integration_copy req darkint dark).data.length = req ∧
    (integration_copy req darkint dark).data.take darkint = dark.data ∧
    (integration_copy req darkint dark).data.getD (darkint + j) [] =
      dark.data.getD (j % darkint) [] ∧
    (integration_copy req darkint dark).header.NINTS = req ∧
    (∀ sbv, dark.sbAndRefpix = some sbv → sbv.length = darkint →
       ∃ sbo, (integration_copy req darkint dark).sbAndRefpix = some sbo ∧
         sbo.length = req ∧ sbo.take darkint = sbv ∧
         sbo.getD (darkint + j) [] = sbv.getD (j % darkint) []) ∧
    (∀ zfv, dark.zeroframe = some zfv → zfv.length = darkint →
       ∃ zfo, (integration_copy req darkint dark).zeroframe = some zfo ∧
         zfo.length = req ∧ zfo.take darkint = zfv ∧
         zfo.getD (darkint + j) [] = zfv.getD (j % darkint) []) := by
  obtain ⟨hl, ht, hg⟩ := extendList_spec ([] : Integ) req darkint dark.data hlen hpos hlt
  refine ⟨hl, ht, hg j hj, rfl, ?_, ?_⟩
  · intro sbv hsb hsblen
    obtain ⟨hl', ht', hg'⟩ := extendList_spec ([] : Integ) req darkint sbv hsblen hpos hlt
    exact ⟨extendList req darkint sbv, by simp [integration_copy, hsb], hl', ht', hg' j hj⟩
  · intro zfv hzf hzflen
    obtain ⟨hl', ht', hg'⟩ := extendList_spec ([] : Frame) req darkint zfv hzflen hpos hlt
    exact ⟨extendList req darkint zfv, by simp [integration_copy, hzf], hl', ht', hg' j hj⟩

/-- Dark used by the C6 witness: 2 integrations (1×1 frames of values 1
and 2), with `sbAndRefpix` and `zeroframe` present. -/
def w6dark : ReadFits :=
  { data := [[[[1]]], [[[2]]]],
    sbAndRefpix := some [[[[5]]], [[[6]]]],
    zeroframe := some [[[7]], [[8]]],
    header := { READPATT := "RAPID", NFRAMES := 1, NSKIP := 0,
                NGROUPS := 1, NINTS := 2 } }

/-- Witness for C6: extending 2 integrations to 5, output integration
2 + 2 = 4 is a copy of integration 2 mod 2 = 0. -/
theorem c6_integration_copy_content_witness :
    w6dark.data.length = 2 ∧ 0 < 2 ∧ 2 < 5 ∧ 2 < 5 - 2 ∧
      ((integration_copy 5 2 w6dark).data.length = 5 ∧
       (integration_copy 5 2 w6dark).data.take 2 = w6dark.data ∧
       (integration_copy 5 2 w6dark).data.getD (2 + 2) [] =
         w6dark.data.getD (2 % 2) [] ∧
       (integration_copy 5 2 w6dark).header.NINTS = 5 ∧
       (∀ sbv, w6dark.sbAndRefpix = some sbv → sbv.length = 2 →
          ∃ sbo, (integration_copy 5 2 w6dark).sbAndRefpix = some sbo ∧
            sbo.length = 5 ∧ sbo.take 2 = sbv ∧
            sbo.getD (2 + 2) [] = sbv.getD (2 % 2) []) ∧
       (∀ zfv, w6dark.zeroframe = some zfv → zfv.length = 2 →
          ∃ zfo, (integration_copy 5 2 w6dark).zeroframe = some zfo ∧
            zfo.length = 5 ∧ zfo.take 2 = zfv ∧
            zfo.getD (2 + 2) [] = zfv.getD (2 % 2) [])) :=
  ⟨by decide, by decide, by decide, by decide,
   c6_integration_copy_content 5 2 2 w6dark (by decide) (by decide)
     (by decide) (by decide)⟩

/-! ### Claim C3: RAPID-to-other-pattern group averaging -/

lemma getD_map_range {α : Type} (f : Nat → α) (n i : Nat) (d : α) (h : i < n) :
    ((List.range n).map f).getD i d = f i := by
  rw [List.getD_eq_getElem?_getD, List.getElem?_map, List.getElem?_range h]
  rfl

/-- Closed form of the group loop: the `frames` array after `g` increments
is `fr.map (· + g * fpg)`, so group `g` is built from those indices. -/
lemma groupLoop_getD (cI : Integ) (nframe fpg : Nat) :
    ∀ (k : Nat) (fr : List Nat) (g : Nat), g < k →
      (groupLoop cI nframe fpg k fr).getD g [] =
        if 1 < nframe then
          meanFrames ((fr.map (· + g * fpg)).map (fun n => cI.getD n []))
        else cI.getD ((fr.map (· + g * fpg)).headD 0) [] := by
  intro k
  induction k with
  | zero => intro fr g hg; omega
  | succ k ih =>
      intro fr g hg
      match g with
      | 0 =>
          have hfr : fr.map (· + 0 * fpg) = fr := by simp
          simp only [groupLoop, List.getD_cons_zero]
          rw [hfr]
      | g' + 1 =>
          simp only [groupLoop, List.getD_cons_succ]
          rw [ih (fr.map (· + fpg)) g' (by omega)]
          have hmm : (fr.map (· + fpg)).map (· + g' * fpg) =
              fr.map (· + (g' + 1) * fpg) := by
            rw [List.map_map]
            apply List.map_congr_left
            intro a _
            simp only [Function.comp_apply]
            ring
          rw [hmm]

/-- Entry `(i, g)` of the Case A output: the mean of the `nframe` frames
starting at offset `g * (nframe + nskip)` (or that single frame when
`nframe = 1`). -/
lemma caseA_entry (cube : Cube) (nint ngroup nframe nskip i g : Nat)
    (hnf : 1 ≤ nframe) (hi : i < nint) (hg : g < ngroup) :
    ((caseAData cube nint ngroup nframe (nframe + nskip)).getD i []).getD g [] =
      if 1 < nframe then
        meanFrames ((List.range nframe).map
          (fun j => (cube.getD i []).getD (g * (nframe + nskip) + j) []))
      else (cube.getD i []).getD (g * (nframe + nskip)) [] := by
  rw [caseAData, getD_map_range _ _ _ _ hi,
    groupLoop_getD (cube.getD i []) nframe (nframe + nskip) ngroup
      (List.range nframe) g hg]
  by_cases h : 1 < nframe
  · rw [if_pos h, if_pos h]
    congr 1
    rw [List.map_map]
    apply List.map_congr_left
    intro a _
    simp only [Function.comp_apply]
    rw [Nat.add_comm]
  · rw [if_neg h, if_neg h]
    congr 1
    obtain ⟨m, rfl⟩ : ∃ m, nframe = m + 1 := ⟨nframe - 1, by omega⟩
    rw [List.range_succ_eq_map]
    simp

/-- Claim C3: translating a RAPID-family dark to a non-RAPID pattern
averages, for every output integration `i` and group `g`, the `nframe`
consecutive input frames starting at index `g * (nframe + nskip)` (the
skipped frames never enter), passes the single frame through unchanged
when `nframe = 1`, and applies the same rule to `sbAndRefpix`.
`hframes` and `hints` are the claim's stated shape preconditions (in the
source, out-of-range indices would raise; the embedding's total `getD`
indexing means the proof itself does not consume them). -/
theorem c3_rapid_group_averaging
    (tbl : List RPatt) (req_patt : String) (nint ngroup nframe nskip : Nat)
    (dark : ReadFits) (i g : Nat)
    (htab : (tbl.find? (fun r => r.name == dark.header.READPATT)).isSome = true)
    (hrap : dark.header.READPATT ∈ rapids)
    (hreq : req_patt ∉ rapids)
    (hnf : 1 ≤ nframe)
    (hframes : ngroup * (nframe + nskip) ≤ (dark.data.headD []).length)
    (hints : nint ≤ dark.data.length)
    (hi : i < nint) (hg : g < ngroup) :
    ∃ d' sbz,
      reorder_dark tbl req_patt nint ngroup nframe nskip dark = .ok (d', sbz) ∧
      ((d'.data.getD i []).getD g [] =
        if 1 < nframe then
          meanFrames ((List.range nframe).map
            (fun j => (dark.data.getD i []).getD (g * (nframe + nskip) + j) []))
        else (dark.data.getD i []).getD (g * (nframe + nskip)) []) ∧
      (∀ sbv, dark.sbAndRefpix = some sbv →
        ∃ sbo, d'.sbAndRefpix = some sbo ∧
          (sbo.getD i []).getD g [] =
            if 1 < nframe then
              meanFrames ((List.range nframe).map
                (fun j => (sbv.getD i []).getD (g * (nframe + nskip) + j) []))
            else (sbv.getD i []).getD (g * (nframe + nskip)) []) := by
  obtain ⟨entry, hfind⟩ := Option.isSome_iff_exists.mp htab
  have hrun : reorder_dark tbl req_patt nint ngroup nframe nskip dark =
      .ok ({ zeroframeCapture dark with
               data := caseAData dark.data nint ngroup nframe (nframe + nskip),
               sbAndRefpix := dark.sbAndRefpix.map (fun sb =>
                 caseAData sb nint ngroup nframe (nframe + nskip)),
               header := reorderHeader req_patt nint ngroup nframe nskip
                 (zeroframeCapture dark).header },
            dark.sbAndRefpix.map (fun sb => sb.map frame0)) := by
    simp only [reorder_dark, hfind, zeroframeCapture_data, zeroframeCapture_sb]
    rw [if_pos hrap, if_pos ⟨hrap, hreq⟩]
  refine ⟨_, _, hrun, ?_, ?_⟩
  · exact caseA_entry dark.data nint ngroup nframe nskip i g hnf hi hg
  · intro sbv hsb
    refine ⟨caseAData sbv nint ngroup nframe (nframe + nskip), ?_, ?_⟩
    · show dark.sbAndRefpix.map (fun sb =>
        caseAData sb nint ngroup nframe (nframe + nskip)) = _
      rw [hsb]
      rfl
    · exact caseA_entry sbv nint ngroup nframe nskip i g hnf hi hg

/-- Readout-pattern table used by the reorder witnesses. -/
def tblW : List RPatt := [⟨"RAPID", 1, 0⟩, ⟨"BRIGHT1", 1, 1⟩]

/-- RAPID dark used by the C3 witness: one integration of three 1×1
frames (1, 3, 5), `sbAndRefpix` present. -/
def w3dark : ReadFits :=
  { data := [[[[1]], [[3]], [[5]]]],
    sbAndRefpix := some [[[[2]], [[4]], [[6]]]],
    header := { READPATT := "RAPID", NFRAMES := 1, NSKIP := 0,
                NGROUPS := 3, NINTS := 1 } }

/-- Witness for C3 at `nframe = 2, nskip = 1, ngroup = 1, nint = 1`,
integration 0, group 0. -/
theorem c3_rapid_group_averaging_witness :
    ((tblW.find? (fun r => r.name == w3dark.header.READPATT)).isSome = true) ∧
    w3dark.header.READPATT ∈ rapids ∧ ("BRIGHT1" : String) ∉ rapids ∧
    (1 : Nat) ≤ 2 ∧ 1 * (2 + 1) ≤ (w3dark.data.headD []).length ∧
    1 ≤ w3dark.data.length ∧
    (∃ d' sbz,
      reorder_dark tblW "BRIGHT1" 1 1 2 1 w3dark = .ok (d', sbz) ∧
      ((d'.data.getD 0 []).getD 0 [] =
        if 1 < 2 then
          meanFrames ((List.range 2).map
            (fun j => (w3dark.data.getD 0 []).getD (0 * (2 + 1) + j) []))
        else (w3dark.data.getD 0 []).getD (0 * (2 + 1)) []) ∧
      (∀ sbv, w3dark.sbAndRefpix = some sbv →
        ∃ sbo, d'.sbAndRefpix = some sbo ∧
          (sbo.getD 0 []).getD 0 [] =
            if 1 < 2 then
              meanFrames ((List.range 2).map
                (fun j => (sbv.getD 0 []).getD (0 * (2 + 1) + j) []))
            else (sbv.getD 0 []).getD (0 * (2 + 1)) [])) :=
  ⟨by decide, by decide, by decide, by decide, by decide, by decide,
   c3_rapid_group_averaging tblW "BRIGHT1" 1 1 2 1 w3dark 0 0 (by decide)
     (by decide) (by decide) (by decide) (by decide) (by decide) (by decide)
     (by decide)⟩

/-! ### Claim C4: pattern-match branch of the Translator -/

/-- Table for the C4 counterexample (pattern names are stored upper-case,
as `readpattern_check` guarantees). -/
def tblC4 : List RPatt := [⟨"RAPID", 1, 0⟩]

/-- Dark whose header spells the RAPID pattern in lower case. -/
def darkC4 : ReadFits :=
  { data := [[[[1]], [[2]]]],
    header := { READPATT := "rapid", NFRAMES := 1, NSKIP := 0,
                NGROUPS := 2, NINTS := 1 } }

/-- Counterexample to claim C4 as stated: the header pattern `"rapid"`
and the requested pattern `"RAPID"` are equal case-insensitively (their
upper-casings agree), yet `reorder_dark` does not take the
no-transformation branch — the exact-match lookup fails and it raises
instead of returning `input[:, 0:ngroup]`. -/
theorem c4_case_insensitive_match_fails :
    "rapid".data.map Char.toUpper = "RAPID".data.map Char.toUpper ∧
    reorder_dark tblC4 "RAPID" 1 1 1 0 darkC4 =
      .error (.lookupError, darkC4) := by
  constructor
  · decide
  · rfl

/-- Claim C4 (amended): when the header pattern equals the requested
pattern by exact string match (the driver stores the requested pattern
upper-cased, so a differently-cased header does not match), the
Translator takes Case B and the output data is `input[:, 0:ngroup]`,
likewise for `sbAndRefpix`. -/
theorem c4_exact_match_case_b
    (tbl : List RPatt) (req_patt : String) (nint ngroup nframe nskip : Nat)
    (dark : ReadFits)
    (htab : (tbl.find? (fun r => r.name == dark.header.READPATT)).isSome = true)
    (heq : req_patt = dark.header.READPATT) :
    ∃ d' sbz,
      reorder_dark tbl req_patt nint ngroup nframe nskip dark = .ok (d', sbz) ∧
      d'.data = dark.data.map (List.take ngroup) ∧
      d'.sbAndRefpix = dark.sbAndRefpix.map (fun sb =>
        sb.map (List.take ngroup)) := by
  obtain ⟨entry, hfind⟩ := Option.isSome_iff_exists.mp htab
  have hnotA : ¬ (dark.header.READPATT ∈ rapids ∧ req_patt ∉ rapids) := by
    intro h
    exact h.2 (by rw [heq]; exact h.1)
  have hrun : reorder_dark tbl req_patt nint ngroup nframe nskip dark =
      .ok ({ zeroframeCapture dark with
               data := dark.data.map (List.take ngroup),
               sbAndRefpix := dark.sbAndRefpix.map (fun sb =>
                 sb.map (List.take ngroup)),
               header := reorderHeader req_patt nint ngroup nframe nskip
                 (zeroframeCapture dark).header },
            if dark.header.READPATT ∈ rapids
            then dark.sbAndRefpix.map (fun sb => sb.map frame0) else none) := by
    simp only [reorder_dark, hfind, zeroframeCapture_data, zeroframeCapture_sb]
    rw [if_neg hnotA, if_pos heq]
  exact ⟨_, _, hrun, rfl, rfl⟩

/-- Witness for the amended C4: an upper-case `"RAPID"` header requested
as `"RAPID"` goes through Case B and keeps the first `ngroup = 1`
frames. -/
theorem c4_exact_match_case_b_witness :
    ((tblC4.find? (fun r => r.name == cubeC1.header.READPATT)).isSome = true) ∧
    ("RAPID" : String) = cubeC1.header.READPATT ∧
    (∃ d' sbz,
      reorder_dark tblC4 "RAPID" 1 1 1 0 cubeC1 = .ok (d', sbz) ∧
      d'.data = cubeC1.data.map (List.take 1) ∧
      d'.sbAndRefpix = cubeC1.sbAndRefpix.map (fun sb =>
        sb.map (List.take 1))) :=
  ⟨by decide, by decide,
   c4_exact_match_case_b tblC4 "RAPID" 1 1 1 0 cubeC1 (by decide) (by decide)⟩

/-! ### Claim C5: non-RAPID input, different requested pattern -/

/-- Claim C5: a non-RAPID-family dark requested as a different pattern
makes `reorder_dark` raise the `ValueError` of lines 1010-1012, and the
object carried at the raise is the input, bit-identical — no data,
`sbAndRefpix`, `zeroframe` or header field was mutated. -/
theorem c5_non_rapid_mismatch_error
    (tbl : List RPatt) (req_patt : String) (nint ngroup nframe nskip : Nat)
    (dark : ReadFits)
    (htab : (tbl.find? (fun r => r.name == dark.header.READPATT)).isSome = true)
    (hnotrap : dark.header.READPATT ∉ rapids)
    (hne : req_patt ≠ dark.header.READPATT) :
    reorder_dark tbl req_patt nint ngroup nframe nskip dark =
      .error (.valueError, dark) := by
  obtain ⟨entry, hfind⟩ := Option.isSome_iff_exists.mp htab
  have hcap : zeroframeCapture dark = dark := by
    rw [zeroframeCapture, if_neg]
    intro h
    exact hnotrap h.1
  simp only [reorder_dark, hfind, hcap]
  rw [if_neg (fun h => hnotrap h.1), if_neg hne]

/-- Table for the C5 witness. -/
def tblC5 : List RPatt := [⟨"BRIGHT2", 2, 0⟩, ⟨"SHALLOW4", 4, 1⟩]

/-- Non-RAPID dark used by the C5 witness. -/
def w5dark : ReadFits :=
  { data := [[[[1]], [[2]]]],
    sbAndRefpix := some [[[[3]], [[4]]]],
    zeroframe := some [[[5]]],
    header := { READPATT := "BRIGHT2", NFRAMES := 2, NSKIP := 0,
                NGROUPS := 2, NINTS := 1 } }

/-- Witness for C5: a BRIGHT2 dark requested as SHALLOW4 raises with the
input carried unchanged. -/
theorem c5_non_rapid_mismatch_error_witness :
    ((tblC5.find? (fun r => r.name == w5dark.header.READPATT)).isSome = true) ∧
    w5dark.header.READPATT ∉ rapids ∧
    ("SHALLOW4" : String) ≠ w5dark.header.READPATT ∧
    reorder_dark tblC5 "SHALLOW4" 1 2 4 1 w5dark =
      .error (.valueError, w5dark) :=
  ⟨by decide, by decide, by decide,
   c5_non_rapid_mismatch_error tblC5 "SHALLOW4" 1 2 4 1 w5dark (by decide)
     (by decide) (by decide)⟩

/-! ### Claim C9: zero-frame capture for RAPID inputs -/

/-- Claim C9: on a RAPID-family dark without a supplied zero-frame,
`reorder_dark` stores `data[:, 0, :, :]` — frame 0 of every integration,
taken before any averaging — as the zero-frame, whatever branch runs
afterwards, and returns `sbAndRefpix[:, 0, :, :]` as `sbzero` when
`sbAndRefpix` is present. -/
theorem c9_zeroframe_capture
    (tbl : List RPatt) (req_patt : String) (nint ngroup nframe nskip : Nat)
    (dark : ReadFits)
    (htab : (tbl.find? (fun r => r.name == dark.header.READPATT)).isSome = true)
    (hrap : dark.header.READPATT ∈ rapids)
    (hz : dark.zeroframe = none) :
    (∀ d' sbz,
       reorder_dark tbl req_patt nint ngroup nframe nskip dark = .ok (d', sbz) →
       d'.zeroframe = some (dark.data.map (fun gI => gI.headD [])) ∧
       sbz = dark.sbAndRefpix.map (fun sb => sb.map (fun gI => gI.headD []))) ∧
    (∀ e d',
       reorder_dark tbl req_patt nint ngroup nframe nskip dark =
         .error (e, d') →
       d'.zeroframe = some (dark.data.map (fun gI => gI.headD []))) := by
  obtain ⟨entry, hfind⟩ := Option.isSome_iff_exists.mp htab
  have hcap : zeroframeCapture dark =
      { dark with zeroframe := some (dark.data.map frame0) } := by
    rw [zeroframeCapture, if_pos ⟨hrap, hz⟩]
  constructor
  · intro d' sbz h
    simp only [reorder_dark, hfind, hcap, if_pos hrap] at h
    by_cases hA : req_patt ∉ rapids
    · rw [if_pos ⟨hrap, hA⟩] at h
      simp only [Except.ok.injEq, Prod.mk.injEq] at h
      obtain ⟨h1, h2⟩ := h
      subst h1
      subst h2
      exact ⟨rfl, rfl⟩
    · rw [if_neg (fun hc => hA hc.2)] at h
      by_cases hB : req_patt = dark.header.READPATT
      · rw [if_pos hB] at h
        simp only [Except.ok.injEq, Prod.mk.injEq] at h
        obtain ⟨h1, h2⟩ := h
        subst h1
        subst h2
        exact ⟨rfl, rfl⟩
      · rw [if_neg hB] at h
        exact Except.noConfusion h
  · intro e d' h
    simp only [reorder_dark, hfind, hcap, if_pos hrap] at h
    by_cases hA : req_patt ∉ rapids
    · rw [if_pos ⟨hrap, hA⟩] at h
      exact Except.noConfusion h
    · rw [if_neg (fun hc => hA hc.2)] at h
      by_cases hB : req_patt = dark.header.READPATT
      · rw [if_pos hB] at h
        exact Except.noConfusion h
      · rw [if_neg hB] at h
        simp only [Except.error.injEq, Prod.mk.injEq] at h
        obtain ⟨h1, h2⟩ := h
        subst h2
        rfl

/-- RAPID dark with no zero-frame, used by the C9 witness. -/
def w9dark : ReadFits :=
  { data := [[[[1]], [[3]]]],
    sbAndRefpix := some [[[[5]], [[7]]]],
    header := { READPATT := "RAPID", NFRAMES := 1, NSKIP := 0,
                NGROUPS := 2, NINTS := 1 } }

/-- Witness for C9: requesting the same RAPID pattern, the zero-frame is
captured from frame 0 and `sbzero` from `sbAndRefpix`'s frame 0. -/
theorem c9_zeroframe_capture_witness :
    ((tblW.find? (fun r => r.name == w9dark.header.READPATT)).isSome = true) ∧
    w9dark.header.READPATT ∈ rapids ∧ w9dark.zeroframe = none ∧
    ((∀ d' sbz,
       reorder_dark tblW "RAPID" 1 1 1 0 w9dark = .ok (d', sbz) →
       d'.zeroframe = some (w9dark.data.map (fun gI => gI.headD [])) ∧
       sbz = w9dark.sbAndRefpix.map (fun sb =>
         sb.map (fun gI => gI.headD []))) ∧
     (∀ e d',
       reorder_dark tblW "RAPID" 1 1 1 0 w9dark = .error (e, d') →
       d'.zeroframe = some (w9dark.data.map (fun gI => gI.headD [])))) :=
  ⟨by decide, by decide, by decide,
   c9_zeroframe_capture tblW "RAPID" 1 1 1 0 w9dark (by decide) (by decide)
     (by decide)⟩

end DarkPrep
